import Mathlib

/-!
Verification of the Ripcord desktop PTT (push-to-talk) low-level keyboard
hook lifecycle manager, translated from
`src/apps/desktop/src-tauri/src/lib.rs`.

The Rust source keeps four process-wide atomics
(`PTT_VK : AtomicI32`, `PTT_PRESSED : AtomicBool`,
`HOOK_RUNNING : AtomicBool`, `HOOK_THREAD_ID : AtomicU32`) plus a
`OnceLock<AppHandle>`.  We embed that shared state as a record, the hook
callback `ll_keyboard_proc` as a pure transition on that record that also
produces the list of emitted Tauri event names and the value returned to
the OS, and the three Tauri commands (`start_ptt_hook`, `stop_ptt_hook`,
`check_key_pressed`) as functions of the state.  The Win32 calls
(`CallNextHookEx`, `GetAsyncKeyState`, `SetWindowsHookExW`,
`GetMessageW`) are oracles supplied as arguments: the hook handle
returned by registration, the successive return values of the message
pump, and the next-hook continuation.
-/

namespace Ripcord

/-- Win32 message constant `WM_KEYDOWN = 0x0100`. -/
def WM_KEYDOWN : Nat := 0x0100

/-- Win32 message constant `WM_KEYUP = 0x0101`. -/
def WM_KEYUP : Nat := 0x0101

/-- Win32 message constant `WM_SYSKEYDOWN = 0x0104`. -/
def WM_SYSKEYDOWN : Nat := 0x0104

/-- Win32 message constant `WM_SYSKEYUP = 0x0105`. -/
def WM_SYSKEYUP : Nat := 0x0105

/-- Win32 message constant `WM_QUIT = 0x0012`. -/
def WM_QUIT : Nat := 0x0012

/-- The process-wide shared atomics of the hook module.
`ptt_vk` is the `AtomicI32` `PTT_VK` (0 = disabled), `ptt_pressed` the
`AtomicBool` `PTT_PRESSED`, `hook_running` the `AtomicBool`
`HOOK_RUNNING`, and `hook_thread_id` the `AtomicU32` `HOOK_THREAD_ID`. -/
structure HookState where
  ptt_vk : Int
  ptt_pressed : Bool
  hook_running : Bool
  hook_thread_id : Nat
deriving Repr, DecidableEq

/-- The fields of `KBDLLHOOKSTRUCT` that reach the callback through
`l_param` (`vk_code` is the `u32` virtual-key code of the event). -/
structure KBDLLHOOKSTRUCT where
  vk_code : Nat
  scan_code : Nat
  flags : Nat
  time : Nat
  extra_info : Nat
deriving Repr, DecidableEq

/-- The Rust cast `vk as u32` applied to the `i32` value `vk`
(two-complement reinterpretation). -/
def i32_as_u32 (vk : Int) : Nat := (vk % 2 ^ 32).toNat

/-- One raw keyboard event as delivered by the OS to the hook:
the hook `code`, the message identifier `w_param`, and the
`KBDLLHOOKSTRUCT` found behind `l_param`. -/
structure KeyEvent where
  code : Int
  w_param : Nat
  kb : KBDLLHOOKSTRUCT
deriving Repr, DecidableEq

/-- The hook callback `ll_keyboard_proc`.  `next` is the
`CallNextHookEx` continuation, `app_handle_set` whether
`APP_HANDLE.get()` returns `Some`.  Returns the updated shared state,
the list of event names emitted via the app handle, and the `isize`
returned to the OS (always the next hook result). -/
def ll_keyboard_proc (next : Int → Nat → KBDLLHOOKSTRUCT → Int)
    (app_handle_set : Bool) (s : HookState)
    (code : Int) (w_param : Nat) (kb : KBDLLHOOKSTRUCT) :
    HookState × List String × Int :=
  let step : HookState × List String :=
    if 0 ≤ code then
      let vk := s.ptt_vk
      if 0 < vk ∧ kb.vk_code = i32_as_u32 vk then
        if app_handle_set then
          if w_param = WM_KEYDOWN ∨ w_param = WM_SYSKEYDOWN then
            -- PTT_PRESSED.swap(true): emit only when the old value was false
            if s.ptt_pressed then ({ s with ptt_pressed := true }, [])
            else ({ s with ptt_pressed := true }, ["ptt-hook-down"])
          else if w_param = WM_KEYUP ∨ w_param = WM_SYSKEYUP then
            -- PTT_PRESSED.swap(false): emit only when the old value was true
            if s.ptt_pressed then ({ s with ptt_pressed := false }, ["ptt-hook-up"])
            else ({ s with ptt_pressed := false }, [])
          else (s, [])
        else (s, [])
      else (s, [])
    else (s, [])
  (step.1, step.2, next code w_param kb)

/-- Running the callback over a whole sequence of keyboard events,
concatenating the emitted event names. -/
def run_events (next : Int → Nat → KBDLLHOOKSTRUCT → Int)
    (app_handle_set : Bool) (s : HookState) :
    List KeyEvent → HookState × List String
  | [] => (s, [])
  | e :: es =>
      let r := ll_keyboard_proc next app_handle_set s e.code e.w_param e.kb
      let rest := run_events next app_handle_set r.1 es
      (rest.1, r.2.1 ++ rest.2)

/-- `w_param` identifies a key-down-class message
(`WM_KEYDOWN` or `WM_SYSKEYDOWN`). -/
def is_down_class (w : Nat) : Bool :=
  decide (w = WM_KEYDOWN) || decide (w = WM_SYSKEYDOWN)

/-- `w_param` identifies a key-up-class message
(`WM_KEYUP` or `WM_SYSKEYUP`). -/
def is_up_class (w : Nat) : Bool :=
  decide (w = WM_KEYUP) || decide (w = WM_SYSKEYUP)

/-- The event passes the callback filter for configured key `vk`:
non-negative hook code, enabled key, and matching virtual-key code. -/
def event_relevant (vk : Int) (e : KeyEvent) : Bool :=
  decide (0 ≤ e.code) && decide (0 < vk) && decide (e.kb.vk_code = i32_as_u32 vk)

/-- Modelled from the spec: the number of distinct press episodes and of
releases in an event sequence for configured key `vk`, starting with the
key believed held iff `held`.  A down-class relevant event while not held
opens an episode (counted once, further repeat downs are not); an
up-class relevant event while held is a release. -/
def spec_counts (vk : Int) (held : Bool) : List KeyEvent → Nat × Nat
  | [] => (0, 0)
  | e :: es =>
      if event_relevant vk e then
        if is_down_class e.w_param then
          if held then spec_counts vk held es
          else
            let r := spec_counts vk true es
            (r.1 + 1, r.2)
        else if is_up_class e.w_param then
          if held then
            let r := spec_counts vk false es
            (r.1, r.2 + 1)
          else spec_counts vk held es
        else spec_counts vk held es
      else spec_counts vk held es

/-- Compilation target of the Rust `cfg(target_os = ...)` gates:
`windows` when `target_os = "windows"`, `other` for every other OS. -/
inductive Platform where
  | windows
  | other
deriving Repr, DecidableEq

/-- Outcome of a `start_ptt_hook` call: the shared state at the moment
the call returns, whether a worker thread was spawned, and the returned
boolean. -/
structure StartOutcome where
  state : HookState
  spawned : Bool
  ret : Bool
deriving Repr, DecidableEq

/-- Outcome of a `stop_ptt_hook` call: the shared state at return and
the list of `(thread id, message)` pairs sent via `PostThreadMessageW`. -/
structure StopOutcome where
  state : HookState
  posted : List (Nat × Nat)
deriving Repr, DecidableEq

/-- Outcome of the worker thread once it has exited: the shared state it
leaves behind, the boolean it sent over the rendezvous channel, and
whether it called `UnhookWindowsHookEx`. -/
structure WorkerOutcome where
  state : HookState
  sent : Bool
  unhooked : Bool
deriving Repr, DecidableEq

/-- The worker thread up to the rendezvous (`tx.send`): stores its
thread id (`tid`) into `HOOK_THREAD_ID`, registers the hook (the OS
answer is the handle `hook`, `0` = failure); on success it sets
`HOOK_RUNNING` before sending `true`.  Returns the state at the send
together with the sent boolean. -/
def worker_install (tid : Nat) (hook : Int) (s : HookState) :
    HookState × Bool :=
  let s1 := { s with hook_thread_id := tid }
  if hook = 0 then (s1, false)
  else ({ s1 with hook_running := true }, true)

/-- The worker thread from the rendezvous to thread exit.  `pump` is the
sequence of `GetMessageW` return values the OS would hand the pump loop;
the `while GetMessageW(..) > 0` loop exits at the first value `≤ 0`
(`0` for `WM_QUIT`, negative for a pump error), after which the worker
unhooks and clears `HOOK_RUNNING`.  Returns `none` while the pump is
still running (no quit or error delivered), `some` once the thread has
exited. -/
def worker_finish (hook : Int) (pump : List Int) (s : HookState) :
    Option (HookState × Bool) :=
  if hook = 0 then some (s, false)
  else if pump.any (fun r => decide (r ≤ 0)) then
    some ({ s with hook_running := false }, true)
  else none

/-- The whole worker thread body spawned by `start_ptt_hook`:
installation followed by pump and teardown.  `none` while the thread is
still pumping, `some` once it has exited. -/
def worker_run (tid : Nat) (hook : Int) (pump : List Int) (s : HookState) :
    Option WorkerOutcome :=
  let r := worker_install tid hook s
  match worker_finish hook pump r.1 with
  | some p => some ⟨p.1, r.2, p.2⟩
  | none => none

/-- `start_ptt_hook(key_code)` compiled for Windows.  Stores `key_code`
into `PTT_VK` and clears `PTT_PRESSED`; returns `true` at once when
`HOOK_RUNNING` already holds; otherwise spawns the worker (with thread
id `tid` and OS hook-registration answer `hook`) and blocks on the
rendezvous until the worker sends its installation outcome, which is
the returned boolean. -/
def start_ptt_hook_windows (key_code : Int) (tid : Nat) (hook : Int)
    (s : HookState) : StartOutcome :=
  let s0 := { s with ptt_vk := key_code, ptt_pressed := false }
  if s0.hook_running then ⟨s0, false, true⟩
  else
    let r := worker_install tid hook s0
    ⟨r.1, true, r.2⟩

/-- `start_ptt_hook(key_code)` compiled for any non-Windows OS: the two
unconditional stores still run, then the function returns `false`. -/
def start_ptt_hook_other (key_code : Int) (s : HookState) : StartOutcome :=
  let s0 := { s with ptt_vk := key_code, ptt_pressed := false }
  ⟨s0, false, false⟩

/-- Platform dispatch for `start_ptt_hook` (`tid` and `hook` are only
meaningful on Windows). -/
def start_ptt_hook : Platform → Int → Nat → Int → HookState → StartOutcome
  | .windows, key_code, tid, hook, s => start_ptt_hook_windows key_code tid hook s
  | .other, key_code, _, _, s => start_ptt_hook_other key_code s

/-- `stop_ptt_hook()`: stores `0` into `PTT_VK` and clears
`PTT_PRESSED`; on Windows, when `HOOK_RUNNING` holds, posts `WM_QUIT`
to `HOOK_THREAD_ID` and returns without waiting. -/
def stop_ptt_hook (p : Platform) (s : HookState) : StopOutcome :=
  let s0 := { s with ptt_vk := 0, ptt_pressed := false }
  match p with
  | .windows =>
      if s0.hook_running then ⟨s0, [(s0.hook_thread_id, WM_QUIT)]⟩
      else ⟨s0, []⟩
  | .other => ⟨s0, []⟩

/-- `check_key_pressed(key_code)`.  `getAsyncKeyState` is the
`GetAsyncKeyState` oracle (its `i16` return value as an integer).  On
Windows: `1` when the state is negative (key held), else `0`; on any
other platform `-1`.  The shared state `s` is taken as an argument to
record that the function never reads it. -/
def check_key_pressed (p : Platform) (getAsyncKeyState : Int → Int)
    (key_code : Int) (s : HookState) : Int :=
  match p with
  | .windows => if getAsyncKeyState key_code < 0 then 1 else 0
  | .other => -1

/-!  Characterization lemmas for the hook callback. -/

theorem proc_not_relevant (next : Int → Nat → KBDLLHOOKSTRUCT → Int)
    (app : Bool) (s : HookState) (code : Int) (w : Nat) (kb : KBDLLHOOKSTRUCT)
    (h : event_relevant s.ptt_vk ⟨code, w, kb⟩ = false) :
    ll_keyboard_proc next app s code w kb = (s, [], next code w kb) := by
  simp only [event_relevant, Bool.and_eq_false_iff, decide_eq_false_iff_not, not_le,
    not_lt] at h
  simp only [ll_keyboard_proc]
  by_cases hc : (0:Int) ≤ code
  · rw [if_pos hc, if_neg (show ¬ (0 < s.ptt_vk ∧ kb.vk_code = i32_as_u32 s.ptt_vk) by
      rcases h with (h | h) | h
      · omega
      · intro hcc; omega
      · intro hcc; exact h hcc.2)]
  · rw [if_neg hc]

theorem proc_down (next : Int → Nat → KBDLLHOOKSTRUCT → Int)
    (s : HookState) (code : Int) (w : Nat) (kb : KBDLLHOOKSTRUCT)
    (h : event_relevant s.ptt_vk ⟨code, w, kb⟩ = true)
    (hd : is_down_class w = true) :
    ll_keyboard_proc next true s code w kb =
      ({ s with ptt_pressed := true },
       if s.ptt_pressed then [] else ["ptt-hook-down"],
       next code w kb) := by
  simp only [event_relevant, Bool.and_eq_true, decide_eq_true_eq] at h
  simp only [is_down_class, Bool.or_eq_true, decide_eq_true_eq] at hd
  simp only [ll_keyboard_proc]
  rw [if_pos h.1.1, if_pos ⟨h.1.2, h.2⟩, if_pos trivial, if_pos hd]
  cases hp : s.ptt_pressed <;> simp

theorem proc_up (next : Int → Nat → KBDLLHOOKSTRUCT → Int)
    (s : HookState) (code : Int) (w : Nat) (kb : KBDLLHOOKSTRUCT)
    (h : event_relevant s.ptt_vk ⟨code, w, kb⟩ = true)
    (hu : is_up_class w = true) :
    ll_keyboard_proc next true s code w kb =
      ({ s with ptt_pressed := false },
       if s.ptt_pressed then ["ptt-hook-up"] else [],
       next code w kb) := by
  simp only [event_relevant, Bool.and_eq_true, decide_eq_true_eq] at h
  simp only [is_up_class, Bool.or_eq_true, decide_eq_true_eq] at hu
  have hnd : ¬ (w = WM_KEYDOWN ∨ w = WM_SYSKEYDOWN) := by
    simp only [WM_KEYDOWN, WM_SYSKEYDOWN]
    simp only [WM_KEYUP, WM_SYSKEYUP] at hu
    omega
  simp only [ll_keyboard_proc]
  rw [if_pos h.1.1, if_pos ⟨h.1.2, h.2⟩, if_pos trivial, if_neg hnd, if_pos hu]
  cases hp : s.ptt_pressed <;> simp

theorem proc_other_class (next : Int → Nat → KBDLLHOOKSTRUCT → Int)
    (app : Bool) (s : HookState) (code : Int) (w : Nat) (kb : KBDLLHOOKSTRUCT)
    (hnd : is_down_class w = false) (hnu : is_up_class w = false) :
    ll_keyboard_proc next app s code w kb = (s, [], next code w kb) := by
  simp only [is_down_class, Bool.or_eq_false_iff, decide_eq_false_iff_not] at hnd
  simp only [is_up_class, Bool.or_eq_false_iff, decide_eq_false_iff_not] at hnu
  simp only [ll_keyboard_proc]
  by_cases hc : (0:Int) ≤ code
  · rw [if_pos hc]
    by_cases hm : 0 < s.ptt_vk ∧ kb.vk_code = i32_as_u32 s.ptt_vk
    · rw [if_pos hm]
      cases app
      · rw [if_neg (by simp)]
      · rw [if_pos rfl, if_neg (by tauto), if_neg (by tauto)]
    · rw [if_neg hm]
  · rw [if_neg hc]

/-- C7: for every keyboard event — including events with negative hook
codes and events for non-matching or disabled keys — the callback
returns the result of `CallNextHookEx` (the `next` continuation applied
to the unmodified event) verbatim; it never swallows an event. -/
theorem C7_callback_always_forwards (next : Int → Nat → KBDLLHOOKSTRUCT → Int)
    (app : Bool) (s : HookState) (code : Int) (w : Nat)
    (kb : KBDLLHOOKSTRUCT) :
    (ll_keyboard_proc next app s code w kb).2.2 = next code w kb := rfl

/-- C10: whenever the configured key is less than or equal to zero —
the zero sentinel or any negative value — the callback matches no event:
the shared state is unchanged and nothing is emitted, for every
delivered event. -/
theorem C10_nonpositive_key_matches_nothing
    (next : Int → Nat → KBDLLHOOKSTRUCT → Int) (app : Bool) (s : HookState)
    (code : Int) (w : Nat) (kb : KBDLLHOOKSTRUCT)
    (h : s.ptt_vk ≤ 0) :
    (ll_keyboard_proc next app s code w kb).1 = s ∧
    (ll_keyboard_proc next app s code w kb).2.1 = [] := by
  have : event_relevant s.ptt_vk ⟨code, w, kb⟩ = false := by
    simp only [event_relevant, Bool.and_eq_false_iff, decide_eq_false_iff_not, not_lt]
    left; right; exact h
  rw [proc_not_relevant next app s code w kb this]
  exact ⟨rfl, rfl⟩

/-- C10 witness: a concrete negative configured key (`-3`) with a
matching raw event wrapping to the same `u32`, left untouched. -/
theorem C10_witness :
    (⟨-3, true, true, 7⟩ : HookState).ptt_vk ≤ 0 ∧
    ((ll_keyboard_proc (fun _ _ _ => 0) true ⟨-3, true, true, 7⟩ 0 WM_KEYDOWN
        ⟨i32_as_u32 (-3), 0, 0, 0, 0⟩).1 = ⟨-3, true, true, 7⟩ ∧
     (ll_keyboard_proc (fun _ _ _ => 0) true ⟨-3, true, true, 7⟩ 0 WM_KEYDOWN
        ⟨i32_as_u32 (-3), 0, 0, 0, 0⟩).2.1 = []) :=
  ⟨by decide, C10_nonpositive_key_matches_nothing _ true ⟨-3, true, true, 7⟩ 0
    WM_KEYDOWN ⟨i32_as_u32 (-3), 0, 0, 0, 0⟩ (by decide)⟩

/-- C1: over every sequence of keyboard events, with the app handle
installed, the number of "ptt-hook-down" notifications the callback
emits equals the number of distinct press episodes of the configured
key and the number of "ptt-hook-up" notifications equals the number of
releases (`spec_counts`): a down-class event emits "key-down" only when
`pressed` was false (setting it true), repeat downs while `pressed`
emit nothing, an up-class event emits "key-up" only when `pressed` was
true (setting it false), an up while not `pressed` emits nothing. -/
theorem C1_emissions_count_episodes (next : Int → Nat → KBDLLHOOKSTRUCT → Int)
    (s : HookState) (events : List KeyEvent) :
    ((run_events next true s events).2.count "ptt-hook-down",
     (run_events next true s events).2.count "ptt-hook-up")
      = spec_counts s.ptt_vk s.ptt_pressed events := by
  induction events generalizing s with
  | nil => simp [run_events, spec_counts]
  | cons e es ih =>
    obtain ⟨c, w, kb⟩ := e
    by_cases hrel : event_relevant s.ptt_vk ⟨c, w, kb⟩ = true
    · by_cases hd : is_down_class w = true
      · have hproc := proc_down next s c w kb hrel hd
        have ihs := ih { s with ptt_pressed := true }
        simp only [run_events, hproc, List.count_append, spec_counts, hrel, hd,
          if_true] at ihs ⊢
        cases hp : s.ptt_pressed <;>
          simp only [hp, if_true, if_false, Bool.false_eq_true] at ihs ⊢ <;>
          rw [← ihs] <;> simp [List.count_cons, Prod.ext_iff, Nat.add_comm]
      · by_cases hu : is_up_class w = true
        · have hproc := proc_up next s c w kb hrel hu
          have ihs := ih { s with ptt_pressed := false }
          simp only [run_events, hproc, List.count_append, spec_counts, hrel, hd,
            hu, if_true, Bool.false_eq_true, if_false] at ihs ⊢
          cases hp : s.ptt_pressed <;>
            simp only [hp, if_true, if_false, Bool.false_eq_true] at ihs ⊢ <;>
            rw [← ihs] <;> simp [List.count_cons, Prod.ext_iff, Nat.add_comm]
        · have hproc := proc_other_class next true s c w kb
            (by simpa using hd) (by simpa using hu)
          simp only [run_events, hproc, List.count_append, spec_counts, hrel, hd,
            hu, if_true, Bool.false_eq_true, if_false]
          simpa using ih s
    · have hproc := proc_not_relevant next true s c w kb (by simpa using hrel)
      simp only [run_events, hproc, List.count_append, spec_counts, hrel,
        Bool.false_eq_true, if_false]
      simpa using ih s

/-- C2 counterexample: with the hook running and the key currently
pressed, `start_ptt_hook(9)` updates more shared state than
`configured_key` alone — it also clears `PTT_PRESSED` — so the resulting
state differs from the old state with only `ptt_vk` replaced. -/
theorem C2_counterexample :
    (start_ptt_hook_windows 9 0 1 ⟨5, true, true, 7⟩).spawned = false ∧
    (start_ptt_hook_windows 9 0 1 ⟨5, true, true, 7⟩).ret = true ∧
    (start_ptt_hook_windows 9 0 1 ⟨5, true, true, 7⟩).state ≠
      { (⟨5, true, true, 7⟩ : HookState) with ptt_vk := 9 } := by
  refine ⟨rfl, rfl, ?_⟩
  intro h
  exact absurd (congrArg HookState.ptt_pressed h) (by decide)

/-- C2 (amended): a `start_ptt_hook(key_code)` call made while
`running` is already true returns `true` immediately without spawning a
second worker thread, and the shared state it updates is exactly
`configured_key` (set to the new key, on which the callback filters
from its next invocation) and `pressed` (reset to false); `running` and
`owning_thread` are untouched. -/
theorem C2_start_while_running (key_code : Int) (tid : Nat) (hook : Int)
    (s : HookState) (h : s.hook_running = true) :
    (start_ptt_hook_windows key_code tid hook s).ret = true ∧
    (start_ptt_hook_windows key_code tid hook s).spawned = false ∧
    (start_ptt_hook_windows key_code tid hook s).state =
      { s with ptt_vk := key_code, ptt_pressed := false } := by
  simp [start_ptt_hook_windows, h]

/-- C2 witness: concrete already-running state, key swapped from 5 to 9. -/
theorem C2_witness :
    (⟨5, true, true, 7⟩ : HookState).hook_running = true ∧
    ((start_ptt_hook_windows 9 0 1 ⟨5, true, true, 7⟩).ret = true ∧
     (start_ptt_hook_windows 9 0 1 ⟨5, true, true, 7⟩).spawned = false ∧
     (start_ptt_hook_windows 9 0 1 ⟨5, true, true, 7⟩).state =
       { (⟨5, true, true, 7⟩ : HookState) with ptt_vk := 9, ptt_pressed := false }) :=
  ⟨rfl, C2_start_while_running 9 0 1 ⟨5, true, true, 7⟩ rfl⟩

/-- C3: when hook registration fails (`SetWindowsHookExW` returns 0)
and no hook was running, `start_ptt_hook` returns `false`, `running` is
still false when the call returns, and the worker thread exits
immediately after sending the failure over the rendezvous (the thread
body runs to completion for every possible pump input, with no unhook
needed and `running` never set). -/
theorem C3_registration_failure (key_code : Int) (tid : Nat)
    (pump : List Int) (s : HookState) (h : s.hook_running = false) :
    (start_ptt_hook_windows key_code tid 0 s).ret = false ∧
    (start_ptt_hook_windows key_code tid 0 s).state.hook_running = false ∧
    worker_run tid 0 pump { s with ptt_vk := key_code, ptt_pressed := false } =
      some ⟨{ s with ptt_vk := key_code, ptt_pressed := false, hook_thread_id := tid }, false, false⟩ ∧
    ({ s with ptt_vk := key_code, ptt_pressed := false, hook_thread_id := tid } : HookState).hook_running = false := by
  refine ⟨?_, ?_, ?_, h⟩
  · simp [start_ptt_hook_windows, worker_install, h]
  · simp [start_ptt_hook_windows, worker_install, h]
  · simp [worker_run, worker_install, worker_finish]

/-- C3 witness: a fresh state, key 5, thread id 3, arbitrary pump. -/
theorem C3_witness :
    (⟨0, false, false, 0⟩ : HookState).hook_running = false ∧
    ((start_ptt_hook_windows 5 3 0 ⟨0, false, false, 0⟩).ret = false ∧
     (start_ptt_hook_windows 5 3 0 ⟨0, false, false, 0⟩).state.hook_running = false ∧
     worker_run 3 0 [7] ⟨5, false, false, 0⟩ =
       some ⟨⟨5, false, false, 3⟩, false, false⟩ ∧
     (⟨5, false, false, 3⟩ : HookState).hook_running = false) := by
  refine ⟨rfl, ?_⟩
  have := C3_registration_failure 5 3 [7] ⟨0, false, false, 0⟩ rfl
  exact this

/-- C4 counterexample: with no worker running but a configured key left
over (reachable through a failed or non-Windows `start`), `stop`
changes the shared state — `configured_key` goes from 5 to 0 — so
"no observable state change when no worker is running" fails. -/
theorem C4_counterexample :
    (⟨5, false, false, 0⟩ : HookState).hook_running = false ∧
    (stop_ptt_hook Platform.windows ⟨5, false, false, 0⟩).state ≠
      (⟨5, false, false, 0⟩ : HookState) := by
  refine ⟨rfl, ?_⟩
  intro h
  exact absurd (congrArg HookState.ptt_vk h) (by decide)

/-- C4 (amended): `stop_ptt_hook` always sets `configured_key` to the
zero sentinel and `pressed` to false (leaving `running` and
`owning_thread` untouched); on Windows it posts the thread-addressed
`WM_QUIT` exactly when `running` is true and returns without waiting;
when no worker is running it posts nothing and is not an error, though
it still performs the two resets (an observable state change when
`configured_key` was nonzero); and it is idempotent — a second call
leaves the same state as the first. -/
theorem C4_stop_behavior (p : Platform) (s : HookState) :
    (stop_ptt_hook p s).state = { s with ptt_vk := 0, ptt_pressed := false } ∧
    (stop_ptt_hook Platform.windows s).posted =
      (if s.hook_running then [(s.hook_thread_id, WM_QUIT)] else []) ∧
    (stop_ptt_hook Platform.other s).posted = [] ∧
    (stop_ptt_hook p (stop_ptt_hook p s).state).state = (stop_ptt_hook p s).state := by
  cases p <;> cases hr : s.hook_running <;> simp [stop_ptt_hook, hr]

/-- C5: `check_key_pressed` returns one of exactly three values
(1 pressed, 0 not pressed, -1 unsupported), never reads the hook state
(the result is the same for any two states), and on a non-supporting
platform returns -1 for every key code, state and OS answer. -/
theorem C5_check_key_pressed_tristate (p : Platform) (f : Int → Int)
    (key_code : Int) (s1 s2 : HookState) :
    ((check_key_pressed p f key_code s1 = 1 ∨
      check_key_pressed p f key_code s1 = 0) ∨
      check_key_pressed p f key_code s1 = -1) ∧
    check_key_pressed p f key_code s1 = check_key_pressed p f key_code s2 ∧
    check_key_pressed Platform.other f key_code s1 = -1 := by
  refine ⟨?_, ?_, rfl⟩
  · cases p
    · by_cases hf : f key_code < 0 <;> simp [check_key_pressed, hf]
    · simp [check_key_pressed]
  · cases p <;> rfl

/-- C6 counterexample: on a non-Windows platform `start_ptt_hook(5)`
does have side effects — it stores the key code and clears `pressed` —
so the shared state is not left unchanged. -/
theorem C6_counterexample :
    (start_ptt_hook_other 5 ⟨0, true, false, 0⟩).state ≠
      (⟨0, true, false, 0⟩ : HookState) := by
  intro h
  exact absurd (congrArg HookState.ptt_vk h) (by decide)

/-- C6 (amended): on a non-supported platform `start_ptt_hook` always
returns `false` and never spawns a worker, and leaves `running` and
`owning_thread` unchanged, but it does store `key_code` into
`configured_key` and reset `pressed` to false (the two unconditional
stores run before the platform gate). -/
theorem C6_start_other (key_code : Int) (s : HookState) :
    (start_ptt_hook_other key_code s).ret = false ∧
    (start_ptt_hook_other key_code s).spawned = false ∧
    (start_ptt_hook_other key_code s).state =
      { s with ptt_vk := key_code, ptt_pressed := false } :=
  ⟨rfl, rfl, rfl⟩

/-- C8: on every path by which the pump terminates — a `WM_QUIT`
(`GetMessageW` returning 0) or any pump error (a negative return),
i.e. any pump sequence containing a value `≤ 0` — the worker with an
installed hook unregisters it (`unhooked = true`) and clears `running`
to false before the thread exits; it never exits leaving `running`
true. -/
theorem C8_worker_exit_clears_running (tid : Nat) (hook : Int)
    (pump : List Int) (s : HookState)
    (hhook : hook ≠ 0) (hterm : pump.any (fun r => decide (r ≤ 0)) = true) :
    worker_run tid hook pump s =
      some ⟨{ s with hook_thread_id := tid, hook_running := false },
            true, true⟩ := by
  simp [worker_run, worker_install, worker_finish, hhook, hterm]

/-- C8 witness: hook handle 2, pump delivering one event then the quit
message. -/
theorem C8_witness :
    (2 : Int) ≠ 0 ∧ ([1, 0] : List Int).any (fun r => decide (r ≤ 0)) = true ∧
    worker_run 4 2 [1, 0] ⟨5, false, false, 0⟩ =
      some ⟨⟨5, false, false, 4⟩, true, true⟩ := by
  refine ⟨by decide, by decide, ?_⟩
  have := C8_worker_exit_clears_running 4 2 [1, 0] ⟨5, false, false, 0⟩
    (by decide) (by decide)
  exact this

end Ripcord
